import Mathlib

/-!
Verification development for the case_builder service (src/case_builder3.py).

The Python source is shallowly embedded: module-level mutable dictionaries
become an explicit ServerState threaded through the request handlers,
Python exceptions become Except values, and the external LLM collaborator
and file contents become oracle parameters.  Each claim about the spec is
settled by a theorem about these definitions.
-/

/-! ## Python datetime model

A datetime value as produced by datetime.strptime or datetime.now.
strptime fills unspecified fields with defaults (month=1, day=1, time 0).
-/

structure PyDateTime where
  year : Nat
  month : Nat := 1
  day : Nat := 1
  hour : Nat := 0
  minute : Nat := 0
  second : Nat := 0
deriving DecidableEq

/-- Lexicographic comparison of datetimes, mirroring Python datetime ordering. -/
def dtLe (a b : PyDateTime) : Bool :=
  if a.year = b.year then
    if a.month = b.month then
      if a.day = b.day then
        if a.hour = b.hour then
          if a.minute = b.minute then Nat.ble a.second b.second
          else Nat.blt a.minute b.minute
        else Nat.blt a.hour b.hour
      else Nat.blt a.day b.day
    else Nat.blt a.month b.month
  else Nat.blt a.year b.year

def isLeapYear (y : Nat) : Bool :=
  (y % 4 = 0 && y % 100 ≠ 0) || y % 400 = 0

def daysInMonth (y m : Nat) : Nat :=
  if m = 2 then (if isLeapYear y then 29 else 28)
  else if m = 4 ∨ m = 6 ∨ m = 9 ∨ m = 11 then 30
  else 31

/-! ## strptime-style parsing

The reconciler parses date strings with datetime.strptime and the formats
"%B %d, %Y", "%B, %Y" and "%Y" (source lines 331-344).  CPython strptime
matches the whole string: %B is a full month name, case-insensitively;
%d is one or two digits in 1..31; %Y is exactly four digits; a literal
space in the format matches one or more whitespace characters; the
resulting day is validated against the month length.
-/

def pyIsSpace (c : Char) : Bool :=
  c = ' ' || c = '\t' || c = '\n' || c = '\r' || c = '\x0b' || c = '\x0c'

def monthNamesLower : List (List Char) :=
  ["january", "february", "march", "april", "may", "june", "july",
   "august", "september", "october", "november", "december"].map String.data

/-- Case-insensitive match of a lowercase pattern against the head of the input. -/
def dropPatCI : List Char → List Char → Option (List Char)
  | [], rest => some rest
  | _ :: _, [] => none
  | p :: ps, c :: cs => if c.toLower = p then dropPatCI ps cs else none

def matchMonthAux : Nat → List (List Char) → List Char → Option (Nat × List Char)
  | _, [], _ => none
  | i, name :: rest, l =>
    match dropPatCI name l with
    | some r => some (i, r)
    | none => matchMonthAux (i + 1) rest l

/-- Match a full month name (directive %B), returning the month number 1..12. -/
def matchMonth (l : List Char) : Option (Nat × List Char) :=
  matchMonthAux 1 monthNamesLower l

/-- Match one or more whitespace characters (a literal blank in the format). -/
def matchSpaces : List Char → Option (List Char)
  | [] => none
  | c :: cs => if pyIsSpace c then some (cs.dropWhile pyIsSpace) else none

def matchComma : List Char → Option (List Char)
  | ',' :: cs => some cs
  | _ => none

def digitVal (l : List Char) : Nat :=
  l.foldl (fun acc c => acc * 10 + (c.toNat - '0'.toNat)) 0

/-- Match the %d directive: one or two digits with value in 1..31. -/
def matchDay (l : List Char) : Option (Nat × List Char) :=
  let ds := l.takeWhile Char.isDigit
  let rest := l.dropWhile Char.isDigit
  if (ds.length = 1 ∨ ds.length = 2) ∧ 1 ≤ digitVal ds ∧ digitVal ds ≤ 31 then
    some (digitVal ds, rest)
  else
    none

/-- Match the %Y directive: exactly four digits. -/
def matchYear (l : List Char) : Option (Nat × List Char) :=
  let ds := l.takeWhile Char.isDigit
  let rest := l.dropWhile Char.isDigit
  if ds.length = 4 then some (digitVal ds, rest) else none

/-- strptime with format "%B %d, %Y", for example "January 15, 2025". -/
def strptimeFullDate (s : String) : Option PyDateTime := do
  let (m, r1) ← matchMonth s.data
  let r2 ← matchSpaces r1
  let (d, r3) ← matchDay r2
  let r4 ← matchComma r3
  let r5 ← matchSpaces r4
  let (y, r6) ← matchYear r5
  if r6 = [] ∧ 1 ≤ y ∧ d ≤ daysInMonth y m then
    some { year := y, month := m, day := d }
  else
    none

/-- strptime with format "%B, %Y", for example "November, 2023". -/
def strptimeMonthYear (s : String) : Option PyDateTime := do
  let (m, r1) ← matchMonth s.data
  let r2 ← matchComma r1
  let r3 ← matchSpaces r2
  let (y, r4) ← matchYear r3
  if r4 = [] ∧ 1 ≤ y then
    some { year := y, month := m }
  else
    none

/-- strptime with format "%Y", for example "2025". -/
def strptimeYearOnly (s : String) : Option PyDateTime := do
  let (y, r) ← matchYear s.data
  if r = [] ∧ 1 ≤ y then
    some { year := y }
  else
    none

/-- Embeds parse_date (source lines 331-342): try the full date format,
then month-year, then year-only, and fall back to the current instant. -/
def parse_date (now : PyDateTime) (s : String) : PyDateTime :=
  match strptimeFullDate s with
  | some d => d
  | none =>
    match strptimeMonthYear s with
    | some d => d
    | none =>
      match strptimeYearOnly s with
      | some d => d
      | none => now

/-! ## datetime formatting helpers -/

def monthNameCap (m : Nat) : String :=
  (["January", "February", "March", "April", "May", "June", "July",
    "August", "September", "October", "November", "December"].get? (m - 1)).getD ""

def pad2 (n : Nat) : String :=
  if n < 10 then "0" ++ toString n else toString n

def pad4 (n : Nat) : String :=
  if n < 10 then "000" ++ toString n
  else if n < 100 then "00" ++ toString n
  else if n < 1000 then "0" ++ toString n
  else toString n

/-- strftime "%B %d, %Y", used for the fallback timeline event date. -/
def formatMonthDayYear (d : PyDateTime) : String :=
  monthNameCap d.month ++ " " ++ pad2 d.day ++ ", " ++ pad4 d.year

/-- strftime "%Y%m%d%H%M%S", used to derive case identifiers. -/
def formatCompact (d : PyDateTime) : String :=
  pad4 d.year ++ pad2 d.month ++ pad2 d.day ++ pad2 d.hour ++ pad2 d.minute ++ pad2 d.second

/-- datetime.isoformat, used for stored creation and upload timestamps. -/
def isoformat (d : PyDateTime) : String :=
  pad4 d.year ++ "-" ++ pad2 d.month ++ "-" ++ pad2 d.day ++ "T" ++
    pad2 d.hour ++ ":" ++ pad2 d.minute ++ ":" ++ pad2 d.second

/-! ## Python string helpers -/

/-- Truthiness of s.strip(): true when the string has a non-whitespace character. -/
def hasNonWs (s : String) : Bool :=
  s.data.any (fun c => !pyIsSpace c)

/-- Python str.strip(): remove leading and trailing whitespace. -/
def pyStrip (s : String) : String :=
  ⟨(s.data.dropWhile pyIsSpace).reverse.dropWhile pyIsSpace |>.reverse⟩

/-- Python slicing s[:n], by code points. -/
def pySlice (s : String) (n : Nat) : String :=
  ⟨s.data.take n⟩

/-- Python str.lower. -/
def pyLower (s : String) : String :=
  ⟨s.data.map Char.toLower⟩

/-- Python "sep".join(parts). -/
def pyJoin (sep : String) (parts : List String) : String :=
  String.intercalate sep parts

/-! ## Data model

A DocumentAnalysis record is one entry of the case_files list for a case
(source line 216-227).  The parties value extracted by the LLM is a JSON
object that may omit either key, so its fields are optional; the merged
parties dictionary built by get_timeline always carries both keys.
-/

structure Parties where
  plaintiff : Option String
  defendant : Option String
deriving DecidableEq

structure MergedParties where
  plaintiff : String
  defendant : String
deriving DecidableEq

structure PartyLists where
  plaintiff : List String
  defendant : List String
deriving DecidableEq

structure TimelineEvent where
  document_date : String
  summary : String
  is_important : Bool
deriving DecidableEq

structure RawEvent where
  document_date : String
  summary : String
deriving DecidableEq

structure DocumentAnalysis where
  file_name : String
  file_path : String
  upload_date : String
  timeline : List TimelineEvent
  issues : PartyLists
  grounds : PartyLists
  parties : Parties
  mismatches : List String
  document_tag : String
  key_events_tag : String
deriving DecidableEq

structure HttpError where
  status_code : Nat
  detail : String
deriving DecidableEq

/-! ## TextExtractor

The content of an uploaded file, as the extraction libraries would see it:
a pdf is a list of pages, each carrying the text layer PyPDF2 would return
for it (none when extract_text yields None) and the text pytesseract would
produce from its rasterized image; a docx is its paragraph texts; a txt is
its decoded content.
-/

structure PdfPage where
  directText : Option String
  ocrText : String
deriving DecidableEq

inductive FileContent where
  | pdfDoc (pages : List PdfPage)
  | docxDoc (paragraphs : List String)
  | txtDoc (content : String)
deriving DecidableEq

/-- Text accumulated from the direct text layer of a pdf: pages whose
extraction returned a truthy (non-None, non-empty) string, concatenated
with no separator (source lines 154-158). -/
def pdfDirectText (pages : List PdfPage) : String :=
  pyJoin "" (pages.filterMap fun p =>
    match p.directText with
    | some t => if t = "" then none else some t
    | none => none)

/-- Per-page OCR results whose stripped text is non-empty (source lines 166-173). -/
def pdfOcrParts (pages : List PdfPage) : List String :=
  pages.filterMap fun p => if hasNonWs p.ocrText then some p.ocrText else none

/-- Embeds extract_text (source lines 147-194).  Exceptions raised inside
the try block are converted to an HTTP 400 error carrying their message. -/
def extract_text (content : FileContent) (file_type : String) : Except HttpError String :=
  if file_type = "pdf" then
    match content with
    | .pdfDoc pages =>
      if pages.length = 0 then
        .error ⟨400, "Error extracting text: PDF is empty or corrupted"⟩
      else if hasNonWs (pdfDirectText pages) then
        .ok (pySlice (pdfDirectText pages) 5000)
      else if !hasNonWs (pyJoin "\n" (pdfOcrParts pages)) then
        .error ⟨400, "Error extracting text: No text could be extracted from PDF, even with OCR"⟩
      else
        .ok (pySlice (pyJoin "\n" (pdfOcrParts pages)) 5000)
    | _ => .error ⟨400, "Error extracting text: could not read file as pdf"⟩
  else if file_type = "docx" then
    match content with
    | .docxDoc paragraphs =>
      if !hasNonWs (pyJoin " " (paragraphs.filter fun t => hasNonWs t)) then
        .error ⟨400, "Error extracting text: No text could be extracted from DOCX"⟩
      else
        .ok (pySlice (pyJoin " " (paragraphs.filter fun t => hasNonWs t)) 5000)
    | _ => .error ⟨400, "Error extracting text: could not read file as docx"⟩
  else if file_type = "txt" then
    match content with
    | .txtDoc text =>
      if !hasNonWs text then
        .error ⟨400, "Error extracting text: No text could be extracted from TXT"⟩
      else
        .ok (pySlice text 5000)
    | _ => .error ⟨400, "Error extracting text: could not read file as txt"⟩
  else
    .error ⟨400, "Error extracting text: Unsupported file type: " ++ file_type⟩

/-! ## StructuredAnalyzer

The outcome of one exchange with the LLM collaborator is an oracle input:
either the client call raised openai.OpenAIError, or a body was received
whose json.loads fails, or a JSON object was parsed, modelled as a record
with one optional field per expected top-level key.
-/

structure LLMJson where
  parties : Option Parties
  timeline : Option (List RawEvent)
  issues : Option PartyLists
  grounds : Option PartyLists
  mismatches : Option (List String)
deriving DecidableEq

inductive LLMCallOutcome where
  | serviceError (msg : String)
  | malformedBody
  | parsedBody (obj : LLMJson)
deriving DecidableEq

/-- Python exception values that can escape the try block of call_llm_api. -/
inductive PyExc where
  | openAIError (msg : String)
  | httpException (status_code : Nat) (detail : String)
  | otherExc (msg : String)
deriving DecidableEq

structure AnalysisResult where
  parties : Parties
  timeline : List TimelineEvent
  issues : PartyLists
  grounds : PartyLists
  mismatches : List String
deriving DecidableEq

/-- The fallback record built by the except-Exception handler of
call_llm_api (source lines 98-104). -/
def fallbackRecord (now : PyDateTime) (file_name : String) : AnalysisResult :=
  { parties := ⟨some "Unknown", some "Unknown"⟩,
    timeline := [⟨formatMonthDayYear now, "Error processing " ++ file_name, false⟩],
    issues := ⟨["Error identifying issues"], ["Error identifying issues"]⟩,
    grounds := ⟨["Error identifying grounds"], ["Error identifying grounds"]⟩,
    mismatches := ["Error analyzing mismatches"] }

/-- The body of the try block of call_llm_api (source lines 41-92): the
client call may raise openai.OpenAIError; json.loads may raise; the
subscript parsed_output of the timeline key may raise KeyError; the
is_important flag is injected into every timeline event; the validation
of the five required keys raises HTTPException(500) when one is absent. -/
def call_llm_api_body (outcome : LLMCallOutcome) : Except PyExc AnalysisResult :=
  match outcome with
  | .serviceError msg => .error (.openAIError msg)
  | .malformedBody => .error (.otherExc "json.loads failed")
  | .parsedBody obj =>
    match obj.timeline with
    | none => .error (.otherExc "KeyError: timeline")
    | some rawTl =>
      let tl := rawTl.map fun e => TimelineEvent.mk e.document_date e.summary false
      match obj.parties, obj.issues, obj.grounds, obj.mismatches with
      | some ps, some iss, some gs, some ms => .ok ⟨ps, tl, iss, gs, ms⟩
      | _, _, _, _ => .error (.httpException 500 "Invalid LLM response structure")

/-- Embeds call_llm_api (source lines 40-104) with its exception handlers:
openai.OpenAIError is re-raised as HTTPException(500); every other
exception, HTTPException included, is absorbed into the fallback record. -/
def call_llm_api (now : PyDateTime) (outcome : LLMCallOutcome) (file_name : String) :
    Except HttpError AnalysisResult :=
  match call_llm_api_body outcome with
  | .ok a => .ok a
  | .error (.openAIError msg) => .error ⟨500, "OpenAI API error: " ++ msg⟩
  | .error _ => .ok (fallbackRecord now file_name)

/-! ## CaseAssistant -/

/-- The outcome of the chat exchange with the LLM collaborator. -/
inductive ChatOutcome where
  | reply (text : String)
  | serviceError (msg : String)
  | otherFailure (msg : String)
deriving DecidableEq

/-! ## Server state

The module-level dictionaries cases and case_files (source lines 33-34),
as association lists in insertion order: Python dict assignment replaces
the value of an existing key in place and appends a new key at the end.
-/

structure ServerState where
  cases : List (String × String)
  case_files : List (String × List DocumentAnalysis)
deriving DecidableEq

def initialState : ServerState := ⟨[], []⟩

def alookup {α : Type} (l : List (String × α)) (k : String) : Option α :=
  (l.find? fun p => p.1 = k).map Prod.snd

def ainsert {α : Type} (l : List (String × α)) (k : String) (v : α) : List (String × α) :=
  if (l.find? fun p => p.1 = k).isSome then
    l.map fun p => if p.1 = k then (k, v) else p
  else
    l ++ [(k, v)]

/-- Embeds call_chatbot_llm (source lines 106-145): the body of its try
block raises HTTPException(404) when the case has no entry in case_files,
and otherwise forwards the context and question to the LLM collaborator. -/
def call_chatbot_llm_body (st : ServerState) (outcome : ChatOutcome) (case_id : String) :
    Except PyExc String :=
  if (alookup st.case_files case_id).isNone then
    .error (.httpException 404 "Case not found")
  else
    match outcome with
    | .serviceError msg => .error (.openAIError msg)
    | .otherFailure msg => .error (.otherExc msg)
    | .reply text => .ok (pyStrip text)

/-- Embeds call_chatbot_llm with its exception handlers: openai.OpenAIError
is re-raised as HTTPException(500); every other exception, the
HTTPException(404) raised inside the try block included, is absorbed into
the generic apology string. -/
def call_chatbot_llm (st : ServerState) (outcome : ChatOutcome) (case_id : String) :
    Except HttpError String :=
  match call_chatbot_llm_body st outcome case_id with
  | .ok t => .ok t
  | .error (.openAIError msg) => .error ⟨500, "Chatbot API error: " ++ msg⟩
  | .error _ => .ok "Error processing your request. Please try again."

/-- Embeds the chat endpoint (source lines 268-275). -/
def chat (st : ServerState) (outcome : ChatOutcome) (case_id : String) :
    Except HttpError String :=
  if (alookup st.cases case_id).isNone then
    .error ⟨404, "Case not found"⟩
  else
    call_chatbot_llm st outcome case_id

/-! ## Document submission -/

/-- An uploaded file: its name, whether its raw bytes are empty (the
truthiness test on content at source line 207), and its parsed content. -/
structure UploadedFile where
  filename : String
  rawEmpty : Bool
  content : FileContent
deriving DecidableEq

/-- Python str.split on a dot over the character list: separators delimit
possibly empty fields. -/
def splitDotAux (acc : List Char) : List Char → List (List Char)
  | [] => [acc.reverse]
  | c :: cs => if c = '.' then acc.reverse :: splitDotAux [] cs else splitDotAux (c :: acc) cs

/-- filename.split on a dot, last component, lowercased (source line 198). -/
def getExt (filename : String) : String :=
  ⟨(((splitDotAux [] filename.data).getLast?).getD filename.data).map Char.toLower⟩

def generatedCaseId (now : PyDateTime) : String :=
  "CASE_" ++ formatCompact now

/-- Builds the per-document record stored in case_files
(source lines 216-227 and 252-263). -/
def mkDocRecord (now : PyDateTime) (case_id filename document_tag key_events_tag : String)
    (analysis : AnalysisResult) : DocumentAnalysis :=
  { file_name := filename,
    file_path := "uploads/" ++ case_id ++ "_" ++ filename,
    upload_date := isoformat now,
    timeline := analysis.timeline,
    issues := analysis.issues,
    grounds := analysis.grounds,
    parties := analysis.parties,
    mismatches := analysis.mismatches,
    document_tag := document_tag,
    key_events_tag := key_events_tag }

/-- Embeds create_case (source lines 196-230).  The returned state is the
state of the module dictionaries after the request, whether it succeeded
or raised: mutations made before an exception persist.  On success the
returned value is the new case identifier. -/
def create_case (now : PyDateTime) (outcome : LLMCallOutcome) (st : ServerState)
    (file : UploadedFile) (document_tag key_events_tag : String) :
    ServerState × Except HttpError String :=
  let ext := getExt file.filename
  if ¬ (ext = "pdf" ∨ ext = "docx" ∨ ext = "txt") then
    (st, .error ⟨400, "Invalid file type. Only PDF, DOCX, TXT allowed."⟩)
  else
    let case_id := generatedCaseId now
    let st1 : ServerState := { st with cases := ainsert st.cases case_id (isoformat now) }
    if file.rawEmpty then
      (st1, .error ⟨400, "Uploaded file is empty"⟩)
    else
      match extract_text file.content ext with
      | .error e => (st1, .error e)
      | .ok _text =>
        match call_llm_api now outcome file.filename with
        | .error e => (st1, .error e)
        | .ok analysis =>
          let doc := mkDocRecord now case_id file.filename document_tag key_events_tag analysis
          ({ st1 with case_files := ainsert st1.case_files case_id [doc] }, .ok case_id)

/-- Embeds update_case (source lines 232-266).  When the case exists in
cases but has no entry in case_files, the append raises KeyError, which
escapes the handler as an internal server error. -/
def update_case (now : PyDateTime) (outcome : LLMCallOutcome) (st : ServerState)
    (case_id : String) (file : UploadedFile) (document_tag key_events_tag : String) :
    ServerState × Except HttpError String :=
  let ext := getExt file.filename
  if ¬ (ext = "pdf" ∨ ext = "docx" ∨ ext = "txt") then
    (st, .error ⟨400, "Invalid file type. Only PDF, DOCX, TXT allowed."⟩)
  else if (alookup st.cases case_id).isNone then
    (st, .error ⟨404, "Case not found"⟩)
  else if file.rawEmpty then
    (st, .error ⟨400, "Uploaded file is empty"⟩)
  else
    match extract_text file.content ext with
    | .error e => (st, .error e)
    | .ok _text =>
      match call_llm_api now outcome file.filename with
      | .error e => (st, .error e)
      | .ok analysis =>
        let doc := mkDocRecord now case_id file.filename document_tag key_events_tag analysis
        match alookup st.case_files case_id with
        | none => (st, .error ⟨500, "KeyError"⟩)
        | some docs =>
          ({ st with case_files := ainsert st.case_files case_id (docs ++ [doc]) }, .ok case_id)

/-! ## Toggling importance -/

def setFlag (e : TimelineEvent) (v : Bool) : TimelineEvent :=
  { e with is_important := v }

/-- The combined timeline of a case: the per-document timelines
concatenated in storage order (source lines 282-284). -/
def combinedOf (docs : List DocumentAnalysis) : List TimelineEvent :=
  (docs.map DocumentAnalysis.timeline).flatten

/-- The inner loop of the write-back pass of toggle_important (source
lines 293-298) over one timeline: events are counted with current_index;
at the first event whose ordinal equals event_index the flag is assigned
and the loop breaks, leaving current_index not incremented.  Returns the
updated timeline and the value of current_index after the loop. -/
def toggleInnerLoop (event_index : Nat) (newVal : Bool) :
    Nat → List TimelineEvent → List TimelineEvent × Nat
  | ci, [] => ([], ci)
  | ci, e :: rest =>
    if ci = event_index then
      (setFlag e newVal :: rest, ci)
    else
      let (rest', ci') := toggleInnerLoop event_index newVal (ci + 1) rest
      (e :: rest', ci')

/-- The outer loop of the write-back pass of toggle_important (source
lines 292-298): the inner break does not terminate the iteration over the
remaining documents, and current_index carries over between documents. -/
def toggleOuterLoop (event_index : Nat) (newVal : Bool) :
    Nat → List DocumentAnalysis → List DocumentAnalysis
  | _, [] => []
  | ci, d :: ds =>
    let (tl', ci') := toggleInnerLoop event_index newVal ci d.timeline
    { d with timeline := tl' } :: toggleOuterLoop event_index newVal ci' ds

/-- Embeds toggle_important (source lines 277-301).  The assignment
through combined_timeline at source line 289 mutates the stored event
itself, because the combined list aliases the per-document event dicts;
the write-back loop then assigns the same new value to every event it
matches.  The net effect on the stored state is toggleOuterLoop applied
with the new value of the addressed event.  Returns the state after the
request and, on success, the new flag value reported in the response. -/
def toggle_important (st : ServerState) (case_id : String) (event_index : Int) :
    ServerState × Except HttpError Bool :=
  if (alookup st.cases case_id).isNone then
    (st, .error ⟨404, "Case not found"⟩)
  else
    let docs := (alookup st.case_files case_id).getD []
    let combined := combinedOf docs
    if event_index < 0 ∨ (combined.length : Int) ≤ event_index then
      (st, .error ⟨400, "Invalid event index"⟩)
    else
      let i := event_index.toNat
      let newVal := !(((combined.get? i).map TimelineEvent.is_important).getD false)
      let docs' := toggleOuterLoop i newVal 0 docs
      ({ st with case_files := ainsert st.case_files case_id docs' }, .ok newVal)

/-! ## TimelineReconciler -/

/-- Model of list(set(l)) for strings: duplicates collapse; the order of
the Python result is unspecified, the model keeps first occurrences. -/
def pySetList (l : List String) : List String :=
  l.dedup

/-- dict.update of the accumulated parties dictionary with the parties
value of one document (source line 327): present keys override. -/
def updateParties (acc : MergedParties) (p : Parties) : MergedParties :=
  { plaintiff := p.plaintiff.getD acc.plaintiff,
    defendant := p.defendant.getD acc.defendant }

/-- The merged parties of a case: the defaults updated by every document
in storage order (source lines 316 and 327). -/
def mergedParties (docs : List DocumentAnalysis) : MergedParties :=
  docs.foldl (fun acc d => updateParties acc d.parties) ⟨"Unknown Plaintiff", "Unknown Defendant"⟩

/-- The response of the timeline endpoint, with the nested analysis
object flattened into fields. -/
structure TimelineView where
  case_id : String
  parties : MergedParties
  timeline : List TimelineEvent
  plaintiff_issues : List String
  defendant_issues : List String
  mismatches : List String
  plaintiff_grounds : List String
  defendant_grounds : List String
  document_tags : List String
  key_events_tags : List String
deriving DecidableEq

/-- The comparator of the timeline sort: ascending by parsed date
(source line 344).  Python sorted is stable; mergeSort with this total
comparator models it. -/
def eventLe (now : PyDateTime) (a b : TimelineEvent) : Bool :=
  dtLe (parse_date now a.document_date) (parse_date now b.document_date)

/-- Embeds get_timeline (source lines 303-359). -/
def get_timeline (now : PyDateTime) (st : ServerState) (case_id : String) :
    Except HttpError TimelineView :=
  if (alookup st.cases case_id).isNone then
    .error ⟨404, "Case not found"⟩
  else
    let docs := (alookup st.case_files case_id).getD []
    let combined := combinedOf docs
    let pIss := (docs.map fun d => d.issues.plaintiff).flatten
    let dIss := (docs.map fun d => d.issues.defendant).flatten
    let pGr := (docs.map fun d => d.grounds.plaintiff).flatten
    let dGr := (docs.map fun d => d.grounds.defendant).flatten
    let mis := (docs.map DocumentAnalysis.mismatches).flatten
    let parties := mergedParties docs
    let dTags := docs.map DocumentAnalysis.document_tag
    let kTags := docs.map DocumentAnalysis.key_events_tag
    .ok
      { case_id := case_id,
        parties := parties,
        timeline := combined.mergeSort (eventLe now),
        plaintiff_issues :=
          if pIss = [] then ["No issues identified for " ++ parties.plaintiff ++ "."]
          else pySetList pIss,
        defendant_issues :=
          if dIss = [] then ["No issues identified for " ++ parties.defendant ++ "."]
          else pySetList dIss,
        mismatches :=
          if mis = [] then ["No facts identified that conflict with the Indian Constitution."]
          else pySetList mis,
        plaintiff_grounds :=
          if pGr = [] then ["No strong grounds identified for " ++ parties.plaintiff ++ "."]
          else pySetList pGr,
        defendant_grounds :=
          if dGr = [] then ["No strong grounds identified for " ++ parties.defendant ++ "."]
          else pySetList dGr,
        document_tags :=
          if dTags = [] then ["No document tags available"] else pySetList dTags,
        key_events_tags :=
          if kTags = [] then ["No key events tags available"] else pySetList kTags }

/-- Embeds the cases listing endpoint (source lines 361-363). -/
def get_cases (st : ServerState) : List String :=
  st.cases.map Prod.fst

instance {ε α : Type} [DecidableEq ε] [DecidableEq α] : DecidableEq (Except ε α) := fun a b =>
  match a, b with
  | .ok x, .ok y =>
    if h : x = y then .isTrue (by rw [h]) else .isFalse (by intro hc; cases hc; exact h rfl)
  | .error x, .error y =>
    if h : x = y then .isTrue (by rw [h]) else .isFalse (by intro hc; cases hc; exact h rfl)
  | .ok _, .error _ => .isFalse (by intro hc; cases hc)
  | .error _, .ok _ => .isFalse (by intro hc; cases hc)

/-! ## Spec-side characterizations used by the claims -/

/-- True when the parsed LLM response object lacks one of the five
required top-level keys of the validation at source lines 87-88. -/
def missingRequiredKey (obj : LLMJson) : Bool :=
  obj.parties.isNone || obj.timeline.isNone || obj.issues.isNone ||
    obj.grounds.isNone || obj.mismatches.isNone

/-- The plaintiff field of the last document that set it, as the spec
describes the merged Parties value. -/
def lastPlaintiff (docs : List DocumentAnalysis) : String :=
  (docs.reverse.findSome? fun d => d.parties.plaintiff).getD "Unknown Plaintiff"

/-- The defendant field of the last document that set it. -/
def lastDefendant (docs : List DocumentAnalysis) : String :=
  (docs.reverse.findSome? fun d => d.parties.defendant).getD "Unknown Defendant"

/-! ## Concrete fixtures used by witnesses and counterexamples -/

def wNow : PyDateTime := ⟨2025, 6, 1, 12, 30, 45⟩

def wDoc (name : String) (tl : List TimelineEvent) (pl : Option String) : DocumentAnalysis :=
  { file_name := name, file_path := "uploads/CASE_X_" ++ name,
    upload_date := "2025-06-01T12:30:45",
    timeline := tl,
    issues := ⟨["issue p"], ["issue d"]⟩,
    grounds := ⟨["ground p"], ["ground d"]⟩,
    parties := ⟨pl, some "DefCo"⟩,
    mismatches := ["m1"],
    document_tag := "agreement", key_events_tag := "breach" }

/-- A case holding two documents, one timeline event each, neither marked
important: document A contributes the year-only event "2020" and document
B the full-date event "January 10, 2021". -/
def wDocs : List DocumentAnalysis :=
  [wDoc "a.pdf" [⟨"2020", "Contract signed", false⟩] (some "P1"),
   wDoc "b.txt" [⟨"January 10, 2021", "Breach occurred", false⟩] (some "P2")]

def wState : ServerState := ⟨[("C", "2025-06-01T12:30:45")], [("C", wDocs)]⟩

/-- A state holding a case identifier with no case_files entry, as left
behind by a document submission that failed after registration. -/
def wEmptyCaseState : ServerState := ⟨[("C", "2025-06-01T12:30:45")], []⟩

/-! ## Helper lemmas about the dictionary model -/

theorem alookup_map_replace {α : Type} (l : List (String × α)) (k : String) (v : α)
    (h : (l.find? fun p => p.1 = k).isSome) :
    alookup (l.map fun p => if p.1 = k then (k, v) else p) k = some v := by
  induction l with
  | nil => simp [List.find?] at h
  | cons p rest ih =>
    by_cases hp : p.1 = k
    · simp [alookup, List.find?, hp]
    · have h' : (rest.find? fun q => q.1 = k).isSome := by
        simpa [List.find?, hp] using h
      have := ih h'
      simpa [alookup, List.find?, hp] using this

theorem alookup_ainsert {α : Type} (l : List (String × α)) (k : String) (v : α) :
    alookup (ainsert l k v) k = some v := by
  unfold ainsert
  split
  · exact alookup_map_replace l k v (by assumption)
  · rename_i hfind
    have hnone : (l.find? fun p => p.1 = k) = none := by
      cases hf : l.find? fun p => p.1 = k with
      | none => rfl
      | some a => rw [hf] at hfind; simp at hfind
    simp [alookup, List.find?_append, hnone, List.find?]

theorem alookup_mem_keys {α : Type} {l : List (String × α)} {k : String} {v : α}
    (h : alookup l k = some v) : k ∈ l.map Prod.fst := by
  unfold alookup at h
  cases hf : l.find? fun p => p.1 = k with
  | none => rw [hf] at h; simp at h
  | some p =>
    have hm := List.mem_of_find?_eq_some hf
    have hp := List.find?_some hf
    have : p.1 = k := by simpa using hp
    exact this ▸ List.mem_map_of_mem Prod.fst hm

/-! ## Helper lemmas about the datetime order -/

theorem dtLe_iff (a b : PyDateTime) :
    dtLe a b = true ↔
      a.year < b.year ∨ (a.year = b.year ∧
        (a.month < b.month ∨ (a.month = b.month ∧
          (a.day < b.day ∨ (a.day = b.day ∧
            (a.hour < b.hour ∨ (a.hour = b.hour ∧
              (a.minute < b.minute ∨ (a.minute = b.minute ∧
                a.second ≤ b.second))))))))) := by
  unfold dtLe
  split_ifs <;> simp [Nat.ble_eq, Nat.blt_eq] <;> omega

theorem dtLe_trans (a b c : PyDateTime) (h1 : dtLe a b = true) (h2 : dtLe b c = true) :
    dtLe a c = true := by
  rw [dtLe_iff] at *
  omega

theorem dtLe_total (a b : PyDateTime) : (dtLe a b || dtLe b a) = true := by
  rw [Bool.or_eq_true, dtLe_iff, dtLe_iff]
  omega

theorem eventLe_trans (now : PyDateTime) (a b c : TimelineEvent)
    (h1 : eventLe now a b = true) (h2 : eventLe now b c = true) : eventLe now a c = true :=
  dtLe_trans _ _ _ h1 h2

theorem eventLe_total (now : PyDateTime) (a b : TimelineEvent) :
    (eventLe now a b || eventLe now b a) = true :=
  dtLe_total _ _

/-! ## Helper lemmas about the toggle loops -/

theorem toggleInnerLoop_length (i : Nat) (v : Bool) (ci : Nat) (tl : List TimelineEvent) :
    (toggleInnerLoop i v ci tl).1.length = tl.length := by
  induction tl generalizing ci with
  | nil => rfl
  | cons e rest ih =>
    unfold toggleInnerLoop
    split
    · simp
    · simpa using ih (ci + 1)

theorem toggleInnerLoop_nomatch (i : Nat) (v : Bool) (ci : Nat) (tl : List TimelineEvent)
    (h : ci + tl.length ≤ i) :
    toggleInnerLoop i v ci tl = (tl, ci + tl.length) := by
  induction tl generalizing ci with
  | nil => rfl
  | cons e rest ih =>
    have hne : ¬ ci = i := by simp at h; omega
    have h' : (ci + 1) + rest.length ≤ i := by simp at h; omega
    unfold toggleInnerLoop
    rw [if_neg hne, ih (ci + 1) h']
    simp; omega

theorem toggleInnerLoop_get (i : Nat) (v : Bool) (ci : Nat) (tl : List TimelineEvent)
    (hle : ci ≤ i) (hlt : i - ci < tl.length) :
    (toggleInnerLoop i v ci tl).1.get? (i - ci) = (tl.get? (i - ci)).map (setFlag · v) := by
  induction tl generalizing ci with
  | nil => simp at hlt
  | cons e rest ih =>
    unfold toggleInnerLoop
    by_cases hci : ci = i
    · rw [if_pos hci]
      have : i - ci = 0 := by omega
      simp [this]
    · rw [if_neg hci]
      have hlt' : ci < i := by omega
      have hsub : i - ci = (i - (ci + 1)) + 1 := by omega
      have h1 : ci + 1 ≤ i := by omega
      have h2 : i - (ci + 1) < rest.length := by simp at hlt; omega
      have := ih (ci + 1) h1 h2
      simp only [hsub, List.get?]
      simpa using this

theorem combinedOf_cons (d : DocumentAnalysis) (ds : List DocumentAnalysis) :
    combinedOf (d :: ds) = d.timeline ++ combinedOf ds := by
  simp [combinedOf]

theorem toggleOuterLoop_length (i : Nat) (v : Bool) (ci : Nat) (docs : List DocumentAnalysis) :
    (combinedOf (toggleOuterLoop i v ci docs)).length = (combinedOf docs).length := by
  induction docs generalizing ci with
  | nil => rfl
  | cons d ds ih =>
    unfold toggleOuterLoop
    rw [combinedOf_cons, combinedOf_cons]
    simp [toggleInnerLoop_length, ih]

theorem toggleOuterLoop_get (i : Nat) (v : Bool) (ci : Nat) (docs : List DocumentAnalysis)
    (hle : ci ≤ i) :
    (combinedOf (toggleOuterLoop i v ci docs)).get? (i - ci) =
      ((combinedOf docs).get? (i - ci)).map (setFlag · v) := by
  induction docs generalizing ci with
  | nil => simp [combinedOf, toggleOuterLoop]
  | cons d ds ih =>
    unfold toggleOuterLoop
    by_cases hcase : i - ci < d.timeline.length
    · rw [combinedOf_cons, combinedOf_cons]
      have hlen : (toggleInnerLoop i v ci d.timeline).1.length = d.timeline.length :=
        toggleInnerLoop_length i v ci d.timeline
      rw [List.get?_eq_getElem?, List.get?_eq_getElem?,
        List.getElem?_append_left (by rw [hlen]; exact hcase),
        List.getElem?_append_left hcase]
      rw [← List.get?_eq_getElem?, ← List.get?_eq_getElem?]
      exact toggleInnerLoop_get i v ci d.timeline hle hcase
    · have hnm : ci + d.timeline.length ≤ i := by omega
      rw [toggleInnerLoop_nomatch i v ci d.timeline hnm]
      rw [combinedOf_cons, combinedOf_cons]
      have hge : d.timeline.length ≤ i - ci := by omega
      rw [List.get?_eq_getElem?, List.get?_eq_getElem?,
        List.getElem?_append_right hge, List.getElem?_append_right hge]
      rw [← List.get?_eq_getElem?, ← List.get?_eq_getElem?]
      have h1 : ci + d.timeline.length ≤ i := hnm
      have heq : i - ci - d.timeline.length = i - (ci + d.timeline.length) := by omega
      rw [heq]
      exact ih (ci + d.timeline.length) h1

theorem setFlag_setFlag (e : TimelineEvent) (v w : Bool) :
    setFlag (setFlag e v) w = setFlag e w := rfl

theorem setFlag_self (e : TimelineEvent) : setFlag e e.is_important = e := rfl

/-! ## Helper lemmas about the parties fold -/

theorem mergedParties_foldl_plaintiff (docs : List DocumentAnalysis) (init : MergedParties) :
    (docs.foldl (fun acc d => updateParties acc d.parties) init).plaintiff =
      (docs.reverse.findSome? fun d => d.parties.plaintiff).getD init.plaintiff := by
  induction docs generalizing init with
  | nil => simp
  | cons d ds ih =>
    rw [List.foldl_cons, ih]
    rw [List.reverse_cons, List.findSome?_append]
    cases hds : ds.reverse.findSome? fun d => d.parties.plaintiff with
    | some s => simp [Option.or, hds]
    | none =>
      simp only [hds, Option.or]
      cases hp : d.parties.plaintiff <;>
        simp [List.findSome?, hp, updateParties]

theorem mergedParties_foldl_defendant (docs : List DocumentAnalysis) (init : MergedParties) :
    (docs.foldl (fun acc d => updateParties acc d.parties) init).defendant =
      (docs.reverse.findSome? fun d => d.parties.defendant).getD init.defendant := by
  induction docs generalizing init with
  | nil => simp
  | cons d ds ih =>
    rw [List.foldl_cons, ih]
    rw [List.reverse_cons, List.findSome?_append]
    cases hds : ds.reverse.findSome? fun d => d.parties.defendant with
    | some s => simp [Option.or, hds]
    | none =>
      simp only [hds, Option.or]
      cases hp : d.parties.defendant <;>
        simp [List.findSome?, hp, updateParties]

/-! ## Helper lemma about truncation -/

theorem pySlice_length_le (s : String) (n : Nat) : (pySlice s n).length ≤ n := by
  have : (pySlice s n).length = (s.data.take n).length := rfl
  rw [this]
  exact List.length_take_le n s.data

/-! ## Structural lemmas about the endpoints -/

theorem get_timeline_ok (now : PyDateTime) (st : ServerState) (cid ts : String)
    (hc : alookup st.cases cid = some ts) :
    ∃ v, get_timeline now st cid = .ok v ∧
      v.timeline = (combinedOf ((alookup st.case_files cid).getD [])).mergeSort (eventLe now) ∧
      v.parties = mergedParties ((alookup st.case_files cid).getD []) := by
  unfold get_timeline
  rw [hc]
  exact ⟨_, rfl, rfl, rfl⟩

theorem toggle_important_ok (st : ServerState) (cid ts : String)
    (docs : List DocumentAnalysis) (i : Nat) (e : TimelineEvent)
    (hc : alookup st.cases cid = some ts)
    (hd : alookup st.case_files cid = some docs)
    (he : (combinedOf docs).get? i = some e) :
    toggle_important st cid (i : Int) =
      ({ st with
          case_files := ainsert st.case_files cid (toggleOuterLoop i (!e.is_important) 0 docs) },
        .ok (!e.is_important)) := by
  have hlen : i < (combinedOf docs).length := by
    rw [List.get?_eq_getElem?] at he
    exact (List.getElem?_eq_some.mp he).1
  unfold toggle_important
  rw [hc, hd]
  have hbound : ¬ ((i : Int) < 0 ∨ ((combinedOf docs).length : Int) ≤ (i : Int)) := by
    push_neg
    constructor
    · positivity
    · exact_mod_cast hlen
  simp only [Option.isNone_some, Bool.false_eq_true, if_false, Option.getD_some]
  rw [if_neg hbound]
  rw [List.get?_eq_getElem?] at he
  simp [he]

/-! ## Claim C1 -/

/-- C1: when the parsed LLM response object lacks any of the five required
top-level keys, call_llm_api does not surface a hard failure: the
HTTPException raised by the validation (and the KeyError raised by the
timeline subscript) is caught by the except-Exception handler of the same
function, and the silent fallback record is returned to the caller. -/
theorem c1_missing_key_yields_fallback (now : PyDateTime) (obj : LLMJson) (fn : String)
    (h : missingRequiredKey obj = true) :
    call_llm_api now (.parsedBody obj) fn = .ok (fallbackRecord now fn) := by
  obtain ⟨p, t, i, g, m⟩ := obj
  cases p <;> cases t <;> cases i <;> cases g <;> cases m <;>
    first
      | rfl
      | (exfalso; simp [missingRequiredKey] at h)

/-- Witness for C1 at a concrete response missing the parties key. -/
theorem c1_missing_key_yields_fallback_witness :
    missingRequiredKey
        ⟨none, some [⟨"2020", "Contract signed"⟩], some ⟨[], []⟩, some ⟨[], []⟩, some []⟩ = true ∧
    call_llm_api wNow
        (.parsedBody ⟨none, some [⟨"2020", "Contract signed"⟩], some ⟨[], []⟩, some ⟨[], []⟩, some []⟩)
        "a.txt" =
      .ok (fallbackRecord wNow "a.txt") :=
  ⟨by decide, c1_missing_key_yields_fallback wNow _ "a.txt" (by decide)⟩

/-! ## Claim C9 -/

/-- C9: a chat request on a case that is present in the cases registry but
has no case_files entry does not fail with a hard CaseNotFound error: the
HTTPException(404) raised inside the try block of call_chatbot_llm is
caught by its own except-Exception handler and the generic apology string
is returned with a success status. -/
theorem c9_no_documents_chat_returns_apology (st : ServerState) (outcome : ChatOutcome)
    (cid ts : String)
    (hc : alookup st.cases cid = some ts)
    (hd : alookup st.case_files cid = none) :
    chat st outcome cid = .ok "Error processing your request. Please try again." := by
  unfold chat call_chatbot_llm call_chatbot_llm_body
  rw [hc, hd]
  simp

/-- Witness for C9 at a concrete state holding a case with no documents. -/
theorem c9_no_documents_chat_returns_apology_witness :
    chat wEmptyCaseState (.reply "The contract was breached.") "C" =
      .ok "Error processing your request. Please try again." :=
  c9_no_documents_chat_returns_apology wEmptyCaseState _ "C" "2025-06-01T12:30:45"
    (by decide) (by decide)

/-! ## Claim C10 -/

/-- C10: any successful create_case call stores, under the returned case
identifier, a one-element document list holding exactly the record built
for this request (this upload's file name and tags, this call's analysis),
whatever the registry held before; a second creation colliding on the same
time-derived identifier therefore replaces the first document list with
the new document, discarding the first. -/
theorem c10_create_case_stores_single_document (now : PyDateTime) (outcome : LLMCallOutcome)
    (st st' : ServerState) (file : UploadedFile) (dt kt cid : String)
    (h : create_case now outcome st file dt kt = (st', .ok cid)) :
    ∃ analysis, call_llm_api now outcome file.filename = .ok analysis ∧
      alookup st'.case_files cid =
        some [mkDocRecord now cid file.filename dt kt analysis] := by
  simp only [create_case] at h
  split at h
  · simp at h
  · split at h
    · simp at h
    · split at h
      · simp at h
      · split at h
        · simp at h
        · rename_i analysis heq
          rw [Prod.mk.injEq] at h
          obtain ⟨hst, hres⟩ := h
          rw [← hst]
          obtain rfl := Except.ok.inj hres
          exact ⟨analysis, heq, alookup_ainsert _ _ _⟩

/-- Witness for C10: a second creation within the same second replaces the
stored document list of the colliding case with the single record of the
second upload (file b.txt and the analysis of this call), discarding the
first upload's record. -/
theorem c10_create_case_stores_single_document_witness :
    alookup
        (create_case wNow .malformedBody
          (create_case wNow .malformedBody initialState
            ⟨"a.txt", false, .txtDoc "hello"⟩ "dt" "kt").1
          ⟨"b.txt", false, .txtDoc "world"⟩ "dt" "kt").1.case_files
        "CASE_20250601123045" =
      some [mkDocRecord wNow "CASE_20250601123045" "b.txt" "dt" "kt"
        (fallbackRecord wNow "b.txt")] := by
  obtain ⟨a, ha, hl⟩ := c10_create_case_stores_single_document wNow .malformedBody
    (create_case wNow .malformedBody initialState
      ⟨"a.txt", false, .txtDoc "hello"⟩ "dt" "kt").1
    (create_case wNow .malformedBody
      (create_case wNow .malformedBody initialState
        ⟨"a.txt", false, .txtDoc "hello"⟩ "dt" "kt").1
      ⟨"b.txt", false, .txtDoc "world"⟩ "dt" "kt").1
    ⟨"b.txt", false, .txtDoc "world"⟩ "dt" "kt" "CASE_20250601123045" (by decide)
  have hcall : call_llm_api wNow .malformedBody "b.txt" =
      .ok (fallbackRecord wNow "b.txt") := by decide
  rw [hcall] at ha
  obtain rfl := Except.ok.inj ha
  exact hl

/-! ## Claim C6 -/

/-- C6: whenever text extraction succeeds, for any file content and any
format tag, the returned text is at most 5000 characters long: every
successful path of extract_text returns a slice to 5000 characters as its
last step. -/
theorem c6_extract_text_bounded (content : FileContent) (ft : String) (s : String)
    (h : extract_text content ft = .ok s) : s.length ≤ 5000 := by
  unfold extract_text at h
  repeat' split at h
  all_goals (try (exfalso; exact Except.noConfusion h))
  all_goals (exact Except.ok.inj h ▸ pySlice_length_le _ _)

/-- Witness for C6 at a concrete txt upload. -/
theorem c6_extract_text_bounded_witness :
    extract_text (.txtDoc "hello world") "txt" = .ok (pySlice "hello world" 5000) ∧
    (pySlice "hello world" 5000).length ≤ 5000 :=
  ⟨by decide, c6_extract_text_bounded (.txtDoc "hello world") "txt" _ (by decide)⟩

/-! ## Claim C2 -/

/-- C2: a document submission that passes the extension check but fails
afterwards (here: an empty upload) leaves the generated case identifier
registered in the cases dictionary with no case_files entry at all, and
that case is observable through the query surface: it is listed by the
cases endpoint and the timeline endpoint answers for it with an empty
timeline instead of failing. -/
theorem c2_failed_submission_leaves_document_free_case
    (now : PyDateTime) (outcome : LLMCallOutcome) (st : ServerState)
    (fname : String) (fc : FileContent) (dt kt : String)
    (hext : getExt fname = "pdf" ∨ getExt fname = "docx" ∨ getExt fname = "txt")
    (habs : alookup st.case_files (generatedCaseId now) = none) :
    (create_case now outcome st ⟨fname, true, fc⟩ dt kt).2 =
        .error ⟨400, "Uploaded file is empty"⟩ ∧
    alookup (create_case now outcome st ⟨fname, true, fc⟩ dt kt).1.cases
        (generatedCaseId now) = some (isoformat now) ∧
    alookup (create_case now outcome st ⟨fname, true, fc⟩ dt kt).1.case_files
        (generatedCaseId now) = none ∧
    generatedCaseId now ∈ get_cases (create_case now outcome st ⟨fname, true, fc⟩ dt kt).1 ∧
    ∃ v, get_timeline now (create_case now outcome st ⟨fname, true, fc⟩ dt kt).1
        (generatedCaseId now) = .ok v ∧ v.timeline = [] := by
  have hcreate : create_case now outcome st ⟨fname, true, fc⟩ dt kt =
      ({ st with cases := ainsert st.cases (generatedCaseId now) (isoformat now) },
        .error ⟨400, "Uploaded file is empty"⟩) := by
    unfold create_case
    rw [if_neg (not_not_intro hext)]
    rfl
  rw [hcreate]
  have hlook : alookup (ainsert st.cases (generatedCaseId now) (isoformat now))
      (generatedCaseId now) = some (isoformat now) := alookup_ainsert _ _ _
  refine ⟨rfl, hlook, habs, alookup_mem_keys hlook, ?_⟩
  obtain ⟨v, hv, htl, -⟩ := get_timeline_ok now
    { st with cases := ainsert st.cases (generatedCaseId now) (isoformat now) }
    (generatedCaseId now) (isoformat now) hlook
  refine ⟨v, hv, ?_⟩
  rw [htl]
  have : alookup { st with
      cases := ainsert st.cases (generatedCaseId now) (isoformat now) }.case_files
      (generatedCaseId now) = none := habs
  rw [this]
  simp [combinedOf]

/-- Witness for C2: from the initial empty state, one create_case call with
a valid extension and an empty body registers the case and records no
document for it. -/
theorem c2_failed_submission_leaves_document_free_case_witness :
    (create_case wNow .malformedBody initialState ⟨"a.txt", true, .txtDoc ""⟩ "dt" "kt").2 =
        .error ⟨400, "Uploaded file is empty"⟩ ∧
    alookup (create_case wNow .malformedBody initialState
        ⟨"a.txt", true, .txtDoc ""⟩ "dt" "kt").1.cases (generatedCaseId wNow) =
      some (isoformat wNow) ∧
    alookup (create_case wNow .malformedBody initialState
        ⟨"a.txt", true, .txtDoc ""⟩ "dt" "kt").1.case_files (generatedCaseId wNow) = none := by
  obtain ⟨h1, h2, h3, -, -⟩ := c2_failed_submission_leaves_document_free_case wNow
    .malformedBody initialState "a.txt" (.txtDoc "") "dt" "kt" (by decide) (by decide)
  exact ⟨h1, h2, h3⟩

/-! ## Claim C3 -/

/-- C3: toggling at a valid position does not change exactly one stored
event.  In a case with two documents of one unmarked event each, a toggle
at position 0 sets the important flag of the first document's event and
also that of the second document's event: the write-back loop's break
leaves the event counter unchanged, so the first event of every later
document matches the index again. -/
theorem c3_toggle_mutates_second_document :
    (toggle_important wState "C" 0).2 = .ok true ∧
    ((alookup wState.case_files "C").map fun docs =>
        docs.map fun d => d.timeline.map TimelineEvent.is_important) = some [[false], [false]] ∧
    ((alookup (toggle_important wState "C" 0).1.case_files "C").map fun docs =>
        docs.map fun d => d.timeline.map TimelineEvent.is_important) = some [[true], [true]] := by
  decide

/-! ## Claim C7 -/

/-- C7: for pdf inputs, any non-whitespace text from the direct text layer
is returned truncated (the OCR fields of the pages do not enter the
result); otherwise per-page OCR results are joined with newline separators
and returned truncated; extraction fails when the joined OCR output still
has no non-whitespace text or when the pdf has zero pages. -/
theorem c7_pdf_extraction_strategy (pages : List PdfPage) :
    (extract_text (.pdfDoc []) "pdf" =
      .error ⟨400, "Error extracting text: PDF is empty or corrupted"⟩) ∧
    (hasNonWs (pdfDirectText pages) = true →
      extract_text (.pdfDoc pages) "pdf" = .ok (pySlice (pdfDirectText pages) 5000)) ∧
    (pages ≠ [] → hasNonWs (pdfDirectText pages) = false →
      hasNonWs (pyJoin "\n" (pdfOcrParts pages)) = true →
      extract_text (.pdfDoc pages) "pdf" = .ok (pySlice (pyJoin "\n" (pdfOcrParts pages)) 5000)) ∧
    (pages ≠ [] → hasNonWs (pdfDirectText pages) = false →
      hasNonWs (pyJoin "\n" (pdfOcrParts pages)) = false →
      extract_text (.pdfDoc pages) "pdf" =
        .error ⟨400, "Error extracting text: No text could be extracted from PDF, even with OCR"⟩) := by
  refine ⟨by decide, ?_, ?_, ?_⟩
  · intro h
    have hne : pages ≠ [] := by
      rintro rfl
      exact absurd h (by decide)
    have hlen : ¬ pages.length = 0 := by simpa [List.length_eq_zero] using hne
    unfold extract_text
    simp [hlen, h]
  · intro hne hdirect hocr
    have hlen : ¬ pages.length = 0 := by simpa [List.length_eq_zero] using hne
    unfold extract_text
    simp [hlen, hdirect, hocr]
  · intro hne hdirect hocr
    have hlen : ¬ pages.length = 0 := by simpa [List.length_eq_zero] using hne
    unfold extract_text
    simp [hlen, hdirect, hocr]

/-- Witness for C7: a page with a text layer is returned without OCR; a
scanned page falls back to OCR; a blank scanned page fails. -/
theorem c7_pdf_extraction_strategy_witness :
    (extract_text (.pdfDoc [⟨some "Contract text", "ignored"⟩]) "pdf" =
      .ok (pySlice (pdfDirectText [⟨some "Contract text", "ignored"⟩]) 5000)) ∧
    (extract_text (.pdfDoc [⟨none, "Scanned text"⟩]) "pdf" =
      .ok (pySlice (pyJoin "\n" (pdfOcrParts [⟨none, "Scanned text"⟩])) 5000)) ∧
    (extract_text (.pdfDoc [⟨none, " "⟩]) "pdf" =
      .error ⟨400, "Error extracting text: No text could be extracted from PDF, even with OCR"⟩) :=
  ⟨(c7_pdf_extraction_strategy [⟨some "Contract text", "ignored"⟩]).2.1 (by decide),
   (c7_pdf_extraction_strategy [⟨none, "Scanned text"⟩]).2.2.1 (by decide) (by decide) (by decide),
   (c7_pdf_extraction_strategy [⟨none, " "⟩]).2.2.2 (by decide) (by decide) (by decide)⟩

/-! ## Claim C8 -/

/-- C8: the merged Parties value of the timeline read is the defaults
updated by every document in storage order, which equals, field by field,
the value set by the last document that set the field, with the Unknown
defaults when no document set it; in particular when the last document
sets a plaintiff name, the merged plaintiff is that name. -/
theorem c8_merged_parties_last_document_wins
    (now : PyDateTime) (st : ServerState) (cid ts : String)
    (docs : List DocumentAnalysis)
    (hc : alookup st.cases cid = some ts)
    (hd : alookup st.case_files cid = some docs)
    (_hlen : 2 ≤ docs.length) :
    ∃ v, get_timeline now st cid = .ok v ∧
      v.parties.plaintiff = lastPlaintiff docs ∧
      v.parties.defendant = lastDefendant docs ∧
      ∀ d p, docs.getLast? = some d → d.parties.plaintiff = some p →
        v.parties.plaintiff = p := by
  obtain ⟨v, hv, -, hp⟩ := get_timeline_ok now st cid ts hc
  rw [hd] at hp
  simp only [Option.getD_some] at hp
  have hpl : v.parties.plaintiff = lastPlaintiff docs := by
    rw [hp]
    unfold mergedParties lastPlaintiff
    exact mergedParties_foldl_plaintiff docs _
  have hdf : v.parties.defendant = lastDefendant docs := by
    rw [hp]
    unfold mergedParties lastDefendant
    exact mergedParties_foldl_defendant docs _
  refine ⟨v, hv, hpl, hdf, ?_⟩
  intro d p hlast hset
  rw [hpl]
  unfold lastPlaintiff
  rw [List.getLast?_eq_head?_reverse] at hlast
  cases hrev : docs.reverse with
  | nil => rw [hrev] at hlast; exact absurd hlast (by simp)
  | cons dd tl =>
    rw [hrev] at hlast
    have hdd : dd = d := by simpa using hlast
    subst hdd
    simp [List.findSome?_cons, hset]

/-- Witness for C8 at a case of two documents with differing plaintiff
names: the merged plaintiff is the second document's name. -/
theorem c8_merged_parties_last_document_wins_witness :
    (get_timeline wNow wState "C").map (fun v => v.parties.plaintiff) = .ok "P2" := by
  obtain ⟨v, hv, -, -, hlast⟩ := c8_merged_parties_last_document_wins wNow wState "C"
    "2025-06-01T12:30:45" wDocs (by decide) (by decide) (by decide)
  have hp := hlast (wDoc "b.txt" [⟨"January 10, 2021", "Breach occurred", false⟩] (some "P2"))
    "P2" (by decide) (by decide)
  rw [hv]
  simpa [Except.map] using hp

/-! ## Claim C5 -/

/-- C5: the reconciler's date parser recovers the full-date, month-year and
year-only forms, in that order of attempts, and yields the current instant
when none match; the merged timeline is the stored events sorted ascending
by parsed instant with every event (and hence its original date string)
preserved; a case holding one document with event date "2020" and another
with "January 10, 2021" merges exactly in that order. -/
theorem c5_date_parsing_and_chronological_merge
    (now : PyDateTime) (st : ServerState) (cid ts : String)
    (docs : List DocumentAnalysis)
    (hc : alookup st.cases cid = some ts)
    (hd : alookup st.case_files cid = some docs) :
    parse_date now "January 10, 2021" = ⟨2021, 1, 10, 0, 0, 0⟩ ∧
    parse_date now "November, 2023" = ⟨2023, 11, 1, 0, 0, 0⟩ ∧
    parse_date now "2020" = ⟨2020, 1, 1, 0, 0, 0⟩ ∧
    parse_date now "13/05/2020" = now ∧
    ∃ v, get_timeline now st cid = .ok v ∧
      v.timeline.Pairwise (fun a b => eventLe now a b = true) ∧
      v.timeline.Perm (combinedOf docs) ∧
      (∀ s₁ s₂ b₁ b₂, docs.map DocumentAnalysis.timeline =
          [[⟨"2020", s₁, b₁⟩], [⟨"January 10, 2021", s₂, b₂⟩]] →
        v.timeline = [⟨"2020", s₁, b₁⟩, ⟨"January 10, 2021", s₂, b₂⟩]) := by
  obtain ⟨v, hv, htl, -⟩ := get_timeline_ok now st cid ts hc
  rw [hd] at htl
  simp only [Option.getD_some] at htl
  refine ⟨rfl, rfl, rfl, rfl, v, hv, ?_, ?_, ?_⟩
  · rw [htl]
    exact List.sorted_mergeSort (eventLe_trans now) (eventLe_total now) _
  · rw [htl]
    exact List.mergeSort_perm _ _
  · intro s₁ s₂ b₁ b₂ hmap
    rw [htl]
    have hcomb : combinedOf docs = [⟨"2020", s₁, b₁⟩, ⟨"January 10, 2021", s₂, b₂⟩] := by
      unfold combinedOf
      rw [hmap]
      rfl
    rw [hcomb]
    apply List.mergeSort_of_sorted
    constructor
    · intro a' ha'
      rw [List.mem_singleton] at ha'
      subst ha'
      rfl
    · exact List.pairwise_singleton _ _

/-- Witness for C5 at the concrete two-document case of the end-to-end
example. -/
theorem c5_date_parsing_and_chronological_merge_witness :
    (get_timeline wNow wState "C").map TimelineView.timeline =
      .ok [⟨"2020", "Contract signed", false⟩,
           ⟨"January 10, 2021", "Breach occurred", false⟩] := by
  obtain ⟨-, -, -, -, v, hv, -, -, hex⟩ := c5_date_parsing_and_chronological_merge wNow
    wState "C" "2025-06-01T12:30:45" wDocs (by decide) (by decide)
  have hres := hex "Contract signed" "Breach occurred" false false (by decide)
  rw [hv]
  simpa [Except.map] using hres

/-! ## Claim C4 -/

/-- The net effect of one toggle_important call at a valid position on the
stored state, together with the new flag of the addressed event. -/
theorem toggle_once (st : ServerState) (cid ts : String) (docs : List DocumentAnalysis)
    (i : Nat) (e : TimelineEvent)
    (hc : alookup st.cases cid = some ts)
    (hd : alookup st.case_files cid = some docs)
    (he : (combinedOf docs).get? i = some e) :
    ∃ st₁, toggle_important st cid (i : Int) = (st₁, .ok (!e.is_important)) ∧
      st₁.cases = st.cases ∧
      alookup st₁.case_files cid = some (toggleOuterLoop i (!e.is_important) 0 docs) ∧
      (combinedOf (toggleOuterLoop i (!e.is_important) 0 docs)).get? i =
        some (setFlag e (!e.is_important)) := by
  refine ⟨_, toggle_important_ok st cid ts docs i e hc hd he, rfl, alookup_ainsert _ _ _, ?_⟩
  have hg := toggleOuterLoop_get i (!e.is_important) 0 docs (Nat.zero_le i)
  simp only [Nat.sub_zero] at hg
  rw [hg, he]
  rfl

/-- C4: a toggle at valid position i flips the important flag of the event
at storage ordinal i and reports the new flag; the flipped event is present
in the merged chronologically sorted timeline returned by every subsequent
read of the case; a second toggle at the same position restores the event
to its original state. -/
theorem c4_toggle_involutive_and_observable
    (st : ServerState) (cid ts : String) (docs : List DocumentAnalysis)
    (i : Nat) (e : TimelineEvent)
    (hc : alookup st.cases cid = some ts)
    (hd : alookup st.case_files cid = some docs)
    (he : (combinedOf docs).get? i = some e) :
    ∃ st₁ docs₁,
      toggle_important st cid (i : Int) = (st₁, .ok (!e.is_important)) ∧
      alookup st₁.case_files cid = some docs₁ ∧
      (combinedOf docs₁).get? i = some (setFlag e (!e.is_important)) ∧
      (∀ now, ∃ v, get_timeline now st₁ cid = .ok v ∧
        setFlag e (!e.is_important) ∈ v.timeline) ∧
      ∃ st₂ docs₂,
        toggle_important st₁ cid (i : Int) = (st₂, .ok e.is_important) ∧
        alookup st₂.case_files cid = some docs₂ ∧
        (combinedOf docs₂).get? i = some e := by
  obtain ⟨st₁, ht1, hcs1, hl1, hg1⟩ := toggle_once st cid ts docs i e hc hd he
  have hc₁ : alookup st₁.cases cid = some ts := by rw [hcs1]; exact hc
  refine ⟨st₁, _, ht1, hl1, hg1, ?_, ?_⟩
  · intro now
    obtain ⟨v, hv, htl, -⟩ := get_timeline_ok now st₁ cid ts hc₁
    refine ⟨v, hv, ?_⟩
    rw [htl, hl1]
    simp only [Option.getD_some]
    exact List.mem_mergeSort.mpr (List.get?_mem hg1)
  · obtain ⟨st₂, ht2, -, hl2, hg2⟩ :=
      toggle_once st₁ cid ts _ i (setFlag e (!e.is_important)) hc₁ hl1 hg1
    refine ⟨st₂, _, ?_, hl2, ?_⟩
    · rw [ht2]
      simp [setFlag, Bool.not_not]
    · rw [hg2]
      simp [setFlag, Bool.not_not]

/-- Witness for C4 at the concrete two-document case: one toggle reports
important, a second toggle at the same position reports unimportant
again. -/
theorem c4_toggle_involutive_and_observable_witness :
    (toggle_important wState "C" ((0 : Nat) : Int)).2 = .ok true ∧
    (toggle_important (toggle_important wState "C" ((0 : Nat) : Int)).1 "C"
      ((0 : Nat) : Int)).2 = .ok false := by
  obtain ⟨st₁, docs₁, ht1, -, -, -, st₂, docs₂, ht2, -, -⟩ :=
    c4_toggle_involutive_and_observable wState "C" "2025-06-01T12:30:45" wDocs 0
      ⟨"2020", "Contract signed", false⟩ (by decide) (by decide) (by decide)
  constructor
  · rw [ht1]
    rfl
  · have hst₁ : (toggle_important wState "C" ((0 : Nat) : Int)).1 = st₁ := by rw [ht1]
    rw [hst₁, ht2]

